import Mathlib

/-!
Verification of the autoscaling simulator's desired-state adjustment and
enforcement engine.  The definitions below are a shallow embedding of the
relevant Python sources:

* GeneralizedDelta.enforce / till_full_enforcement and its per-timestamp
  enforcement cache (autoscalingsim/utils/deltarepr/generalized_delta.py),
* PlatformScalingModel.delay (autoscalingsim/scaling/scaling_model/
  platform_scaling_model/platform_scaling_model.py),
* the Adjuster's cooldown timestamp adjustment and best-option selection
  (autoscalingsim/scaling/policiesbuilder/adjustmentplacement/adjuster.py),
* the Placer's escalation logic and its specialized strategy
  (autoscalingsim/scaling/policiesbuilder/adjustmentplacement/placer.py),
* PriceScoreCalculator (desired_adjustment_calculator/score_calculators.py),
* PlatformState.__add__ (autoscalingsim/utils/state/platform_state.py) with
  the iterator of autoscalingsim/deltarepr/platform_state_delta.py.

Simulated time and delays are integers (a fixed time unit such as one
minute or one millisecond); fallible Python code is embedded as Except
values carrying the kind of exception raised.
-/

/-- Decidable equality for Except results, so that concrete runs of the
embedded code can be checked by evaluation. -/
def exceptDecEq {ε α : Type} [DecidableEq ε] [DecidableEq α] :
    DecidableEq (Except ε α)
  | .error e, .error f =>
    if h : e = f then .isTrue (by rw [h])
    else .isFalse (by intro hh; cases hh; exact h rfl)
  | .error _, .ok _ => .isFalse (by intro hh; cases hh)
  | .ok _, .error _ => .isFalse (by intro hh; cases hh)
  | .ok x, .ok y =>
    if h : x = y then .isTrue (by rw [h])
    else .isFalse (by intro hh; cases hh; exact h rfl)

instance {ε α : Type} [DecidableEq ε] [DecidableEq α] : DecidableEq (Except ε α) :=
  exceptDecEq

/-- Python runtime errors that the embedded code can raise. -/
inductive PyErr where
  | attributeError : PyErr
  | typeError : PyErr
  | valueError : PyErr
  | nameError : PyErr
  deriving DecidableEq, Repr

/-- Delta on one homogeneous container group: a signed replica-count change
together with the in_change and virtual flags, identified by provider and node
type.  Modelled from the spec: the ContainerGroupDelta class itself is not
among the provided sources; the spec describes it as a signed replica-count
change for one homogeneous group carrying a virtual flag (proposed but not yet
committed) and an in_change flag. -/
structure ContainerGroupDelta where
  provider : String
  node_type : String
  sign : Int
  in_change : Bool
  virtual : Bool
  deriving DecidableEq, Repr

/-- Enforced (committed) version of a container group delta.  Modelled from the
spec: enforcement turns the delta into committed capacity, so the enforced copy
is no longer in change; the enforce method itself is not among the provided
sources (it is called as node_group_delta.enforce() by
PlatformScalingModel.delay). -/
def ContainerGroupDelta.enforce (c : ContainerGroupDelta) : ContainerGroupDelta :=
  { c with in_change := false }

/-- Signed instance-count changes for the entities hosted in one group.
Modelled from the spec: the EntitiesGroupDelta class is not among the provided
sources; the spec describes it as signed instance-count changes for the
entities (services) of the paired container group. -/
structure EntitiesGroupDelta where
  changes : List (String × Int)
  deriving DecidableEq, Repr

/-- Per-provider scaling information, from platform_scaling_model.py: booting
and termination durations per node type.  Lookups are total functions, matching
the pure-lookup contract of the ScalingModel external input. -/
structure PlatformScalingInfo where
  booting_duration_for_node : String → Int
  termination_duration_for_node : String → Int

/-- Platform scaling model, from platform_scaling_model.py: provider name to
scaling information. -/
structure PlatformScalingModel where
  platform_scaling_infos : String → PlatformScalingInfo

/-- PlatformScalingModel.delay from platform_scaling_model.py: for an in-change
delta, look up the termination duration when the sign is negative and the
booting duration otherwise, and return it with the enforced copy of the delta;
otherwise return a zero delay and None. -/
def PlatformScalingModel.delay (psm : PlatformScalingModel)
    (node_group_delta : ContainerGroupDelta) : Int × Option ContainerGroupDelta :=
  if node_group_delta.in_change then
    let d :=
      if node_group_delta.sign < 0 then
        (psm.platform_scaling_infos node_group_delta.provider).termination_duration_for_node
          node_group_delta.node_type
      else
        (psm.platform_scaling_infos node_group_delta.provider).booting_duration_for_node
          node_group_delta.node_type
    (d, some node_group_delta.enforce)
  else (0, none)

/-- Application scaling model.  Modelled from the spec: it exposes, per
service, the booting (start) duration and the termination duration; the class
itself is not among the provided sources (ServiceScalingInfo shows the two
stored durations). -/
structure ApplicationScalingModel where
  service_booting_duration : String → Int
  service_termination_duration : String → Int

/-- Delay of one entity change: termination duration for a negative change,
booting (start) duration otherwise.  Modelled from the spec: an entity's own
service-specific delay is its termination or start duration. -/
def ApplicationScalingModel.delayOf (asm : ApplicationScalingModel)
    (sc : String × Int) : Int :=
  if sc.2 < 0 then asm.service_termination_duration sc.1
  else asm.service_booting_duration sc.1

/-- Deduplication keeping the first occurrence of each element, matching the
insertion order of the keys of a Python dict. -/
def dedupFirst (l : List Int) : List Int :=
  l.foldl (fun acc x => if x ∈ acc then acc else acc ++ [x]) []

/-- ApplicationScalingModel.delay.  Modelled from the spec: for every entity in
the paired entities-group delta, look up its own service-specific delay, and
group the entity changes by delay into a mapping from delay to the sub-delta of
the entities with that delay (a Python dict, here an association list in key
insertion order).  A missing (None) entities delta yields no entries. -/
def ApplicationScalingModel.delay (asm : ApplicationScalingModel) :
    Option EntitiesGroupDelta → List (Int × EntitiesGroupDelta)
  | none => []
  | some egd =>
    (dedupFirst (egd.changes.map asm.delayOf)).map
      (fun dl => (dl, ⟨egd.changes.filter (fun sc => asm.delayOf sc == dl)⟩))

/-- An emitted sub-delta of enforcement: the pair of an optional container
group delta and an optional entities group delta.  In the source each emitted
element is a freshly constructed GeneralizedDelta whose enforcement cache is
empty, so only the two sub-deltas carry information. -/
structure GDPair where
  container_group_delta : Option ContainerGroupDelta
  entities_group_delta : Option EntitiesGroupDelta
  deriving DecidableEq, Repr

/-- Result of enforcement: the Python dict groups emitted deltas into lists
per timestamp; we keep the flat list of (timestamp, delta) pairs in emission
order, which preserves both the set of keys and the multiset of entries. -/
abbrev Timeline := List (Int × GDPair)

/-- GeneralizedDelta from generalized_delta.py: the two sub-deltas plus the
cached_enforcement dict keyed by base timestamp. -/
structure GeneralizedDelta where
  container_group_delta : Option ContainerGroupDelta
  entities_group_delta : Option EntitiesGroupDelta
  cached_enforcement : List (Int × Timeline)
  deriving DecidableEq, Repr

/-- Association-list lookup for the enforcement cache (Python dict membership
and indexing by timestamp). -/
def cacheLookup (t : Int) : List (Int × Timeline) → Option Timeline
  | [] => none
  | e :: rest => if e.1 = t then some e.2 else cacheLookup t rest

/-- Maximum of a list of integers, zero on the empty list; the source only
takes the maximum of the keys of a non-empty dict. -/
def listMaxInt : List Int → Int
  | [] => 0
  | x :: xs => xs.foldl max x

/-- Entity-level entries of the enforcement loop in GeneralizedDelta.enforce:
for each (delay, entities sub-delta) pair the loop sets the virtual flag of
container_group_delta_virtual to True and appends the pair at
delta_timestamp + delay + delay_from_containers; when
container_group_delta_virtual is still None (sign zero), the attribute
assignment raises AttributeError. -/
def entityEntries (t dfc : Int) (cgdv : Option ContainerGroupDelta) :
    List (Int × EntitiesGroupDelta) → Except PyErr (List (Int × GDPair))
  | [] => .ok []
  | p :: rest =>
    match cgdv with
    | none => .error .attributeError
    | some c =>
      match entityEntries t dfc cgdv rest with
      | .error e => .error e
      | .ok es => .ok ((t + p.1 + dfc, ⟨some { c with virtual := true }, some p.2⟩) :: es)

/-- Body of GeneralizedDelta.enforce from generalized_delta.py, without the
cache handling.  A None container group delta raises AttributeError on the
in_change access.  For an in-change non-virtual delta it looks up the
container delay and the enforced delta via PlatformScalingModel.delay and the
per-delay entity sub-deltas via ApplicationScalingModel.delay, then: for a
negative sign it uses max_entity_delay = max of the entity delays (zero when
there are none) and pairs entities with a virtual copy of the unchanged delta;
for a positive sign it uses delay_from_containers = container delay and pairs
entities with a virtual copy of the enforced delta.  The container-level entry
is emitted at delta_timestamp + max_entity_delay + container_group_delay with a
None entities delta. -/
def GeneralizedDelta.enforceCore (d : GeneralizedDelta) (psm : PlatformScalingModel)
    (asm : ApplicationScalingModel) (t : Int) : Except PyErr Timeline :=
  match d.container_group_delta with
  | none => .error .attributeError
  | some cgd =>
    if cgd.in_change && !cgd.virtual then
      let pr := psm.delay cgd
      let container_group_delay := pr.1
      let enforced := pr.2
      let entities_by_delays := asm.delay d.entities_group_delta
      if cgd.sign < 0 then
        let max_entity_delay :=
          if entities_by_delays.length > 0 then listMaxInt (entities_by_delays.map Prod.fst)
          else 0
        match entityEntries t 0 (some cgd) entities_by_delays with
        | .error e => .error e
        | .ok es =>
          .ok ((t + max_entity_delay + container_group_delay, ⟨enforced, none⟩) :: es)
      else if cgd.sign > 0 then
        match enforced with
        | none => .error .attributeError
        | some enf =>
          match entityEntries t container_group_delay (some enf) entities_by_delays with
          | .error e => .error e
          | .ok es => .ok ((t + container_group_delay, ⟨enforced, none⟩) :: es)
      else
        match entityEntries t 0 none entities_by_delays with
        | .error e => .error e
        | .ok es => .ok ((t + container_group_delay, ⟨enforced, none⟩) :: es)
    else .ok []

/-- GeneralizedDelta.enforce from generalized_delta.py: answer from
cached_enforcement when the base timestamp is present; otherwise reset the
cache to the empty dict, compute the timeline, store it under the base
timestamp and return it.  An exception during computation propagates after the
cache was already reset, leaving it empty.  The delta with its updated cache is
returned alongside the result. -/
def GeneralizedDelta.enforce (d : GeneralizedDelta) (psm : PlatformScalingModel)
    (asm : ApplicationScalingModel) (t : Int) : Except PyErr Timeline × GeneralizedDelta :=
  match cacheLookup t d.cached_enforcement with
  | some tl => (.ok tl, d)
  | none =>
    match d.enforceCore psm asm t with
    | .ok tl => (.ok tl, { d with cached_enforcement := [(t, tl)] })
    | .error e => (.error e, { d with cached_enforcement := [] })

/-- GeneralizedDelta.till_full_enforcement from generalized_delta.py: call
enforce and return max(resulting timestamps) minus the base timestamp, or a
zero duration when no entries were produced. -/
def GeneralizedDelta.till_full_enforcement (d : GeneralizedDelta)
    (psm : PlatformScalingModel) (asm : ApplicationScalingModel) (t : Int) :
    Except PyErr Int × GeneralizedDelta :=
  let r := d.enforce psm asm t
  match r.1 with
  | .error e => (.error e, r.2)
  | .ok tl =>
    (.ok (if tl.length > 0 then listMaxInt (tl.map Prod.fst) - t else 0), r.2)

/-- Cooldown timestamp adjustment of the Adjuster, identical in
_update_timeline_with_best_option and in
_attempt_to_use_existing_nodes_and_scale_down_if_needed (adjuster.py): when the
cooldown period is positive, a timestamp before the last scheduled action is
replaced by last action plus cooldown; otherwise, when the elapsed time since
the last action exceeds the cooldown, the timestamp is pushed further by the
excess; otherwise it is left unchanged. -/
def adjust_action_timestamp (cooldown_period last_scheduled_scaling_action_ts
    ts_of_unmet_change : Int) : Int :=
  if cooldown_period > 0 then
    if last_scheduled_scaling_action_ts > ts_of_unmet_change then
      last_scheduled_scaling_action_ts + cooldown_period
    else
      let elapsed := ts_of_unmet_change - last_scheduled_scaling_action_ts
      if elapsed > cooldown_period then ts_of_unmet_change + (elapsed - cooldown_period)
      else ts_of_unmet_change
  else ts_of_unmet_change

/-- State score as used by the Adjuster selection: the joint score and the
is_worst flag.  Modelled from the spec and from the ScoreCalculator contract in
score_calculators.py (the StateScore class itself is not among the provided
sources): scores are comparable scalars, higher values are more desirable (for
cost optimization the score is the reverse or negative of the price), and
is_worst marks an infeasible option. -/
structure StateScore where
  joint_score : ℚ
  is_worst : Bool
  deriving DecidableEq, Repr

/-- Outcome of the Adjuster selection: which candidate delta is written into
the timeline. -/
inductive PlanChoice where
  | addition : PlanChoice
  | substitution : PlanChoice
  deriving DecidableEq, Repr

/-- Selection logic of Adjuster._update_timeline_with_best_option
(adjuster.py): if the addition score is_worst, write the substitution delta;
else if the substitution score is_worst, write the addition delta; otherwise
write the addition delta exactly when its joint score is strictly greater than
the substitution's, and the substitution delta otherwise. -/
def update_timeline_with_best_option (state_score_addition state_score_substitution :
    StateScore) : PlanChoice :=
  if state_score_addition.is_worst then .substitution
  else if state_score_substitution.is_worst then .addition
  else if state_score_addition.joint_score > state_score_substitution.joint_score then
    .addition
  else .substitution

/-- In-container placement option from placer.py: container type, capacity
taken and the placed entities with instance counts. -/
structure InContainerPlacement where
  container_type : String
  capacity_taken : ℚ
  placed_entities : List (String × Int)
  deriving DecidableEq, Repr

/-- Placement options per container type, the return shape of the Placer
strategies. -/
abbrev PlacementOptions := List (String × List InContainerPlacement)

/-- Placement hints supported by the Placer (placer.py placement_hints). -/
inductive PlacementHint where
  | specialized : PlacementHint
  | balanced : PlacementHint
  | existing_mixture : PlacementHint
  deriving DecidableEq, Repr

/-- Placer._place_existing_mixture from placer.py: the body returns the empty
dict unconditionally. -/
def Placer_place_existing_mixture (reqs catalog : List (String × Int)) :
    PlacementOptions := []

/-- Placer._place_specialized from placer.py: the body is a bare pass
statement, so the call returns None. -/
def Placer_place_specialized (reqs catalog : List (String × Int)) :
    Option PlacementOptions := none

/-- Specialized step of Placer.compute_placement_options: the result of
_place_specialized is passed to len; len(None) raises TypeError.  Were a dict
returned, a non-empty one would be returned directly and an empty one would
fall through to be cached and returned. -/
def Placer_specialized_step (reqs catalog : List (String × Int)) :
    Except PyErr PlacementOptions :=
  match Placer_place_specialized reqs catalog with
  | none => .error .typeError
  | some opts => .ok opts

/-- Escalation logic of Placer.compute_placement_options (placer.py), for a
Placer whose cache is empty and with no dynamic inputs.  The results of the
_place_shared call and of the _place_balanced filter are taken as parameters:
their bodies depend on the SystemCapacity class and on the container catalog
operations, which are not among the provided sources.  Control flow follows
the source: the existing_mixture hint first tries _place_existing_mixture and
on an empty result escalates; the shared stage runs when the previous stage
failed or the hint is balanced, applying the balanced filter only for the
balanced hint; the specialized stage runs when the previous stage failed or
the hint is specialized. -/
def compute_placement_options (placement_hint : PlacementHint)
    (reqs catalog : List (String × Int))
    (shared_result balanced_result : PlacementOptions) : Except PyErr PlacementOptions :=
  let em := Placer_place_existing_mixture reqs catalog
  if placement_hint = .existing_mixture ∧ em.length > 0 then .ok em
  else
    let failed1 := placement_hint = .existing_mixture
    if failed1 ∨ placement_hint = .balanced then
      let opts := if placement_hint = .balanced then balanced_result else shared_result
      if opts.length > 0 then .ok opts else Placer_specialized_step reqs catalog
    else if placement_hint = .specialized then Placer_specialized_step reqs catalog
    else .ok []

/-- Per-container-type information used by the price score calculator: the
price per hour. -/
structure ContainerTypeInfo where
  price_p_h : ℚ
  deriving DecidableEq, Repr

/-- Association-list lookup by name (Python dict membership and indexing by
string key). -/
def lookupAssoc {α : Type} (name : String) : List (String × α) → Option α
  | [] => none
  | p :: rest => if p.1 = name then some p.2 else lookupAssoc name rest

/-- PriceScoreCalculator.__call__ from score_calculators.py: a container name
absent from container_for_scaled_entities_types raises ValueError; otherwise
the price is duration_h * containers_count * price_p_h and the result is the
pair of the score and the price.  The concrete score class (score_class) is
not among the provided sources; the score component here carries the price it
wraps, matching score = score_class(price). -/
def PriceScoreCalculator_call
    (container_for_scaled_entities_types : List (String × ContainerTypeInfo))
    (container_name : String) (duration_h : ℚ) (containers_count : Int) :
    Except PyErr (ℚ × ℚ) :=
  match lookupAssoc container_name container_for_scaled_entities_types with
  | none => .error .valueError
  | some info =>
    let price := duration_h * (containers_count : ℚ) * info.price_p_h
    .ok (price, price)

/-- Regional delta as needed by PlatformState.__add__: it carries its region
name (regional_delta.region_name is read by the source). -/
structure RegionalDelta where
  region_name : String
  deriving DecidableEq, Repr

/-- Region of the platform state (utils/state/region.py is summarized by its
name here; PlatformState.__add__ never successfully constructs one). -/
structure Region where
  name : String
  deriving DecidableEq, Repr

/-- Platform state from utils/state/platform_state.py: mapping region name to
Region. -/
structure PlatformState where
  regions : List (String × Region)
  deriving DecidableEq, Repr

/-- Platform state delta from deltarepr/platform_state_delta.py: mapping
region name to RegionalDelta; iteration yields the (region_name, regional
delta) pairs in key order (PlatformStateDeltaIterator.__next__). -/
structure PlatformStateDelta where
  deltas_per_region : List (String × RegionalDelta)
  deriving DecidableEq, Repr

/-- Attribute access regional_delta.region_name performed by the loop body of
PlatformState.__add__: the loop variable regional_delta is bound to the
(region_name, RegionalDelta) pair produced by
PlatformStateDeltaIterator.__next__, and a tuple has no attribute region_name,
so the access raises AttributeError. -/
def pair_region_name_attr (pair : String × RegionalDelta) : Except PyErr String :=
  .error .attributeError

/-- One iteration of the loop of PlatformState.__add__: the membership test
evaluates regional_delta.region_name on the bound pair, raising
AttributeError; the remaining statements reference the unbound local
region_name and would raise NameError even if the attribute existed. -/
def PlatformState_add_body (modified_state : PlatformState)
    (pair : String × RegionalDelta) : Except PyErr PlatformState :=
  match pair_region_name_attr pair with
  | .error e => .error e
  | .ok _ => .error .nameError

/-- PlatformState.__add__ from utils/state/platform_state.py: copy the state,
check the operand type, and iterate over the state delta running the loop body
on each (region name, regional delta) pair. -/
def PlatformState_add (s : PlatformState) (state_delta : PlatformStateDelta) :
    Except PyErr PlatformState :=
  state_delta.deltas_per_region.foldlM PlatformState_add_body ⟨s.regions⟩

/-- Concrete platform scaling model for witnesses: every node boots in 3 time
units and terminates in 4. -/
def psm0 : PlatformScalingModel := ⟨fun _ => ⟨fun _ => 3, fun _ => 4⟩⟩

/-- Concrete application scaling model for witnesses: every service starts in
1 time unit and terminates in 2. -/
def asm0 : ApplicationScalingModel := ⟨fun _ => 1, fun _ => 2⟩

/-- Concrete scale-up container group delta for witnesses. -/
def cgdUp0 : ContainerGroupDelta := ⟨"aws", "small", 1, true, false⟩

/-- Concrete scale-up entities group delta for witnesses. -/
def egdUp0 : EntitiesGroupDelta := ⟨[("serviceA", 1)]⟩

/-- Concrete scale-up generalized delta with an empty cache. -/
def dUp0 : GeneralizedDelta := ⟨some cgdUp0, some egdUp0, []⟩

/-- Concrete scale-down container group delta for witnesses. -/
def cgdDown0 : ContainerGroupDelta := ⟨"aws", "small", -1, true, false⟩

/-- Concrete scale-down entities group delta for witnesses. -/
def egdDown0 : EntitiesGroupDelta := ⟨[("serviceA", -1)]⟩

/-- Concrete scale-down generalized delta with an empty cache. -/
def dDown0 : GeneralizedDelta := ⟨some cgdDown0, some egdDown0, []⟩

/-- Timeline produced by enforcing dUp0 at base timestamp 0 with psm0 and
asm0: container-ready entry at 3, entity-start entry at 4. -/
def tlUp0 : Timeline :=
  [(3, ⟨some ⟨"aws", "small", 1, false, false⟩, none⟩),
   (4, ⟨some ⟨"aws", "small", 1, false, true⟩, some ⟨[("serviceA", 1)]⟩⟩)]

/-- Timeline produced by enforcing dDown0 at base timestamp 0 with psm0 and
asm0: container-removal entry at 6, entity-termination entry at 2. -/
def tlDown6 : Timeline :=
  [(6, ⟨some ⟨"aws", "small", -1, false, false⟩, none⟩),
   (2, ⟨some ⟨"aws", "small", -1, true, true⟩, some ⟨[("serviceA", -1)]⟩⟩)]

/-- Concrete platform state with no regions, for the PlatformState addition
witness. -/
def ps0 : PlatformState := ⟨[]⟩

/-- Concrete non-empty platform state delta with one regional delta, for the
PlatformState addition witness. -/
def psd0 : PlatformStateDelta := ⟨[("us-east", ⟨"us-east"⟩)]⟩

theorem entityEntries_some (t dfc : Int) (c : ContainerGroupDelta) :
    ∀ l : List (Int × EntitiesGroupDelta),
      entityEntries t dfc (some c) l =
        .ok (l.map (fun p => (t + p.1 + dfc,
          (⟨some { c with virtual := true }, some p.2⟩ : GDPair))))
  | [] => rfl
  | p :: rest => by
    simp [entityEntries, entityEntries_some t dfc c rest]

theorem foldl_max_le_self (l : List Int) (a : Int) : a ≤ l.foldl max a := by
  induction l generalizing a with
  | nil => simp
  | cons b l ih =>
    simp only [List.foldl_cons]
    exact le_trans (le_max_left a b) (ih (max a b))

theorem mem_le_foldl_max (l : List Int) (a x : Int) (h : x ∈ l) :
    x ≤ l.foldl max a := by
  induction l generalizing a with
  | nil => simp at h
  | cons b l ih =>
    simp only [List.foldl_cons]
    rcases List.mem_cons.mp h with rfl | hx
    · exact le_trans (le_max_right a x) (foldl_max_le_self l (max a x))
    · exact ih (max a b) hx

theorem le_listMaxInt (l : List Int) (x : Int) (h : x ∈ l) : x ≤ listMaxInt l := by
  cases l with
  | nil => simp at h
  | cons b l =>
    simp only [listMaxInt]
    rcases List.mem_cons.mp h with rfl | hx
    · exact foldl_max_le_self l x
    · exact mem_le_foldl_max l b x hx

theorem cacheLookup_nil (t : Int) : cacheLookup t [] = none := rfl

theorem cacheLookup_single_ne (t t' : Int) (tl : Timeline) (h : t ≠ t') :
    cacheLookup t [(t', tl)] = none := by
  simp only [cacheLookup]
  rw [if_neg (fun hh : t' = t => h hh.symm)]

theorem enforceCore_cache_irrel (d : GeneralizedDelta) (c : List (Int × Timeline))
    (psm : PlatformScalingModel) (asm : ApplicationScalingModel) (t : Int) :
    GeneralizedDelta.enforceCore { d with cached_enforcement := c } psm asm t =
      d.enforceCore psm asm t := by
  cases d
  rfl

theorem enforce_idem (d : GeneralizedDelta) (psm : PlatformScalingModel)
    (asm : ApplicationScalingModel) (t : Int) :
    ((d.enforce psm asm t).2).enforce psm asm t = d.enforce psm asm t := by
  unfold GeneralizedDelta.enforce
  cases hc : cacheLookup t d.cached_enforcement with
  | some tl => simp [hc]
  | none =>
    cases hcore : d.enforceCore psm asm t with
    | ok tl => simp [hc, hcore, cacheLookup]
    | error e =>
      simp only [hc, hcore]
      have h1 : cacheLookup t ({ d with cached_enforcement := ([] : List (Int × Timeline)) }).cached_enforcement = none := rfl
      have h2 := enforceCore_cache_irrel d [] psm asm t
      simp [h1, h2, hcore]

theorem enforceCore_scaleUp (psm : PlatformScalingModel) (asm : ApplicationScalingModel)
    (d : GeneralizedDelta) (cgd : ContainerGroupDelta) (t : Int)
    (hc : d.container_group_delta = some cgd)
    (hin : cgd.in_change = true) (hv : cgd.virtual = false) (hs : 0 < cgd.sign) :
    d.enforceCore psm asm t =
      .ok ((t + (psm.platform_scaling_infos cgd.provider).booting_duration_for_node
              cgd.node_type, (⟨some cgd.enforce, none⟩ : GDPair)) ::
        (asm.delay d.entities_group_delta).map (fun p =>
          (t + p.1 + (psm.platform_scaling_infos cgd.provider).booting_duration_for_node
              cgd.node_type,
            (⟨some { cgd.enforce with virtual := true }, some p.2⟩ : GDPair)))) := by
  have hns : ¬ cgd.sign < 0 := by omega
  simp [GeneralizedDelta.enforceCore, hc, hin, hv, hs, hns,
    PlatformScalingModel.delay, entityEntries_some]

theorem enforceCore_scaleDown (psm : PlatformScalingModel) (asm : ApplicationScalingModel)
    (d : GeneralizedDelta) (cgd : ContainerGroupDelta) (t : Int)
    (hc : d.container_group_delta = some cgd)
    (hin : cgd.in_change = true) (hv : cgd.virtual = false) (hs : cgd.sign < 0) :
    d.enforceCore psm asm t =
      .ok ((t + (if (asm.delay d.entities_group_delta).length > 0 then
              listMaxInt ((asm.delay d.entities_group_delta).map Prod.fst) else 0)
            + (psm.platform_scaling_infos cgd.provider).termination_duration_for_node
              cgd.node_type, (⟨some cgd.enforce, none⟩ : GDPair)) ::
        (asm.delay d.entities_group_delta).map (fun p =>
          (t + p.1, (⟨some { cgd with virtual := true }, some p.2⟩ : GDPair)))) := by
  simp [GeneralizedDelta.enforceCore, hc, hin, hv, hs,
    PlatformScalingModel.delay, entityEntries_some]

theorem enforce_fresh (psm : PlatformScalingModel) (asm : ApplicationScalingModel)
    (d : GeneralizedDelta) (t : Int) (hfresh : d.cached_enforcement = []) :
    (d.enforce psm asm t).1 = d.enforceCore psm asm t := by
  unfold GeneralizedDelta.enforce
  rw [hfresh]
  cases hcore : d.enforceCore psm asm t with
  | ok tl => simp [cacheLookup, hcore]
  | error e => simp [cacheLookup, hcore]

/-- C1: for a GeneralizedDelta whose container-group delta is in_change, not
virtual and of positive sign, and a base timestamp t with non-negative
container and entity delays, the schedule returned by enforce contains the
enforced container-only delta at t + container_delay and each entity's start
sub-delta at t + entity_delay + container_delay, paired with a virtual copy of
the enforced container delta; consequently no entry carrying an entities delta
has a timestamp earlier than the container-ready timestamp. -/
theorem claim_c1_scale_up_ordering (psm : PlatformScalingModel)
    (asm : ApplicationScalingModel) (d : GeneralizedDelta)
    (cgd : ContainerGroupDelta) (t : Int)
    (hc : d.container_group_delta = some cgd)
    (hin : cgd.in_change = true) (hv : cgd.virtual = false) (hs : 0 < cgd.sign)
    (hfresh : d.cached_enforcement = [])
    (hcd : 0 ≤ (psm.platform_scaling_infos cgd.provider).booting_duration_for_node
      cgd.node_type)
    (hed : ∀ p ∈ asm.delay d.entities_group_delta, 0 ≤ p.1) :
    ∃ tl, (d.enforce psm asm t).1 = .ok tl ∧
      (t + (psm.platform_scaling_infos cgd.provider).booting_duration_for_node
          cgd.node_type, (⟨some cgd.enforce, none⟩ : GDPair)) ∈ tl ∧
      (∀ p ∈ asm.delay d.entities_group_delta,
        (t + p.1 + (psm.platform_scaling_infos cgd.provider).booting_duration_for_node
            cgd.node_type,
          (⟨some { cgd.enforce with virtual := true }, some p.2⟩ : GDPair)) ∈ tl) ∧
      ∀ e ∈ tl, (e.2).entities_group_delta.isSome = true →
        t + (psm.platform_scaling_infos cgd.provider).booting_duration_for_node
          cgd.node_type ≤ e.1 := by
  have hcore := enforceCore_scaleUp psm asm d cgd t hc hin hv hs
  refine ⟨_, (enforce_fresh psm asm d t hfresh).trans hcore, ?_, ?_, ?_⟩
  · exact List.mem_cons_self _ _
  · intro p hp
    exact List.mem_cons_of_mem _ (List.mem_map_of_mem _ hp)
  · intro e he hsome
    rcases List.mem_cons.mp he with rfl | hm
    · simp at hsome
    · rcases List.mem_map.mp hm with ⟨p, hp, rfl⟩
      have h0 := hed p hp
      simp only []
      omega

/-- C1 witness: the concrete scale-up delta dUp0 enforced with psm0 and asm0
at base timestamp 0 (container boot 3, service start 1) satisfies the claim:
container-ready entry at 3, entity-start entry at 4. -/
theorem claim_c1_scale_up_ordering_witness :
    ∃ tl, (dUp0.enforce psm0 asm0 0).1 = .ok tl ∧
      (0 + (psm0.platform_scaling_infos cgdUp0.provider).booting_duration_for_node
          cgdUp0.node_type, (⟨some cgdUp0.enforce, none⟩ : GDPair)) ∈ tl ∧
      (∀ p ∈ asm0.delay dUp0.entities_group_delta,
        (0 + p.1 + (psm0.platform_scaling_infos cgdUp0.provider).booting_duration_for_node
            cgdUp0.node_type,
          (⟨some { cgdUp0.enforce with virtual := true }, some p.2⟩ : GDPair)) ∈ tl) ∧
      ∀ e ∈ tl, (e.2).entities_group_delta.isSome = true →
        0 + (psm0.platform_scaling_infos cgdUp0.provider).booting_duration_for_node
          cgdUp0.node_type ≤ e.1 :=
  claim_c1_scale_up_ordering psm0 asm0 dUp0 cgdUp0 0 rfl rfl rfl (by decide) rfl
    (by decide) (by decide)

/-- C2 counterexample: enforcing the concrete scale-down delta dDown0 at base
timestamp 0 (container termination 4, service termination 2) yields exactly
the container-removal entry at 6 and the entity-termination entry at 2 — no
entry is emitted at the base timestamp 0 itself, contradicting the claim that
enforce emits at t a GeneralizedDelta pairing the unchanged container delta
with a None entities delta. -/
theorem claim_c2_counterexample :
    (dDown0.enforce psm0 asm0 0).1 = .ok tlDown6 ∧
      tlDown6.all (fun e => e.1 != 0) = true :=
  ⟨rfl, by decide⟩

/-- C2 amended: for a GeneralizedDelta whose container-group delta is
in_change, not virtual and of negative sign, enforce emits each entity's
termination sub-delta at t + that entity's delay paired with a virtual copy of
the unchanged container delta, and the final container removal (the enforced
container delta paired with a None entities delta) at
t + max(all entity delays) + container_delay; when the container and entity
delays are positive, no entry is emitted at the base timestamp t itself. -/
theorem claim_c2_scale_down_schedule (psm : PlatformScalingModel)
    (asm : ApplicationScalingModel) (d : GeneralizedDelta)
    (cgd : ContainerGroupDelta) (t : Int)
    (hc : d.container_group_delta = some cgd)
    (hin : cgd.in_change = true) (hv : cgd.virtual = false) (hs : cgd.sign < 0)
    (hfresh : d.cached_enforcement = []) :
    (d.enforce psm asm t).1 =
      .ok ((t + (if (asm.delay d.entities_group_delta).length > 0 then
              listMaxInt ((asm.delay d.entities_group_delta).map Prod.fst) else 0)
            + (psm.platform_scaling_infos cgd.provider).termination_duration_for_node
              cgd.node_type, (⟨some cgd.enforce, none⟩ : GDPair)) ::
        (asm.delay d.entities_group_delta).map (fun p =>
          (t + p.1, (⟨some { cgd with virtual := true }, some p.2⟩ : GDPair)))) ∧
      ((0 < (psm.platform_scaling_infos cgd.provider).termination_duration_for_node
          cgd.node_type ∧ ∀ p ∈ asm.delay d.entities_group_delta, 0 < p.1) →
        ∀ e ∈ ((t + (if (asm.delay d.entities_group_delta).length > 0 then
              listMaxInt ((asm.delay d.entities_group_delta).map Prod.fst) else 0)
            + (psm.platform_scaling_infos cgd.provider).termination_duration_for_node
              cgd.node_type, (⟨some cgd.enforce, none⟩ : GDPair)) ::
          (asm.delay d.entities_group_delta).map (fun p =>
            (t + p.1, (⟨some { cgd with virtual := true }, some p.2⟩ : GDPair)))),
          e.1 ≠ t) := by
  constructor
  · exact (enforce_fresh psm asm d t hfresh).trans
      (enforceCore_scaleDown psm asm d cgd t hc hin hv hs)
  · rintro ⟨htd, hdl⟩ e he
    have hmed : 0 ≤ (if (asm.delay d.entities_group_delta).length > 0 then
        listMaxInt ((asm.delay d.entities_group_delta).map Prod.fst) else 0) := by
      split
      case isTrue hlen =>
        cases hl : asm.delay d.entities_group_delta with
        | nil => rw [hl] at hlen; simp at hlen
        | cons q rest =>
          have hq : 0 < q.1 := hdl q (by rw [hl]; exact List.mem_cons_self _ _)
          have hle : q.1 ≤ listMaxInt ((q :: rest).map Prod.fst) :=
            le_listMaxInt _ _ (List.mem_map_of_mem _ (List.mem_cons_self _ _))
          omega
      case isFalse hlen => omega
    rcases List.mem_cons.mp he with rfl | hm
    · simp only []
      omega
    · rcases List.mem_map.mp hm with ⟨p, hp, rfl⟩
      have h0 := hdl p hp
      simp only []
      omega

/-- C2 witness: the amended claim evaluated on the concrete scale-down delta
dDown0 at base timestamp 0: enforce yields the container-removal entry at 6
and the entity-termination entry at 2, and no entry sits at timestamp 0. -/
theorem claim_c2_scale_down_schedule_witness :
    (dDown0.enforce psm0 asm0 0).1 = .ok tlDown6 ∧
      ∀ e ∈ tlDown6, e.1 ≠ (0 : Int) :=
  ⟨(claim_c2_scale_down_schedule psm0 asm0 dDown0 cgdDown0 0 rfl rfl rfl (by decide)
      rfl).1,
   (claim_c2_scale_down_schedule psm0 asm0 dDown0 cgdDown0 0 rfl rfl rfl (by decide)
      rfl).2 ⟨by decide, by decide⟩⟩

/-- C6: two consecutive calls of till_full_enforcement with identical
arguments return the identical duration and leave the enforcement cache
exactly as the first call stored it, and whenever enforce produced a timeline
the returned duration is max(resulting timestamps) minus the base timestamp,
or zero when no entries were produced. -/
theorem claim_c6_till_full_enforcement_idempotent (psm : PlatformScalingModel)
    (asm : ApplicationScalingModel) (d : GeneralizedDelta) (t : Int) :
    ((d.till_full_enforcement psm asm t).2).till_full_enforcement psm asm t =
        d.till_full_enforcement psm asm t ∧
      ∀ tl, (d.enforce psm asm t).1 = .ok tl →
        (d.till_full_enforcement psm asm t).1 =
          .ok (if tl.length > 0 then listMaxInt (tl.map Prod.fst) - t else 0) := by
  constructor
  · have hpost : (d.till_full_enforcement psm asm t).2 = (d.enforce psm asm t).2 := by
      unfold GeneralizedDelta.till_full_enforcement
      cases h : (d.enforce psm asm t).1 with
      | ok tl => simp [h]
      | error e => simp [h]
    rw [hpost]
    unfold GeneralizedDelta.till_full_enforcement
    rw [enforce_idem d psm asm t]
  · intro tl htl
    unfold GeneralizedDelta.till_full_enforcement
    simp [htl]

/-- C6 witness: on the concrete scale-up delta dUp0 at base timestamp 0, the
repeated call agrees with the first and the duration is
max(timestamps of tlUp0) minus 0. -/
theorem claim_c6_till_full_enforcement_idempotent_witness :
    ((dUp0.till_full_enforcement psm0 asm0 0).2).till_full_enforcement psm0 asm0 0 =
        dUp0.till_full_enforcement psm0 asm0 0 ∧
      (dUp0.till_full_enforcement psm0 asm0 0).1 =
        .ok (if tlUp0.length > 0 then listMaxInt (tlUp0.map Prod.fst) - 0 else 0) :=
  ⟨(claim_c6_till_full_enforcement_idempotent psm0 asm0 dUp0 0).1,
   (claim_c6_till_full_enforcement_idempotent psm0 asm0 dUp0 0).2 tlUp0 rfl⟩

/-- C7 counterexample: after enforcing the concrete fresh delta dUp0 at
timestamp 0 and then at timestamp 100, the enforcement cache no longer holds
an entry for timestamp 0, contradicting the claim that the entry for the
first timestamp survives a computation at a different timestamp. -/
theorem claim_c7_counterexample :
    cacheLookup 0
      ((((dUp0.enforce psm0 asm0 0).2).enforce psm0 asm0 100).2).cached_enforcement =
      none := by decide

/-- C7 amended: the enforcement cache holds at most the most recently computed
entry: starting from a delta with an empty cache, enforcing at t1 and then at
a different timestamp t2 evicts the entry for t1, so a later enforce at t1
recomputes instead of answering from the stored entry. -/
theorem claim_c7_cache_single_entry (psm : PlatformScalingModel)
    (asm : ApplicationScalingModel) (d : GeneralizedDelta) (t1 t2 : Int)
    (hfresh : d.cached_enforcement = []) (hne : t1 ≠ t2) :
    cacheLookup t1
      ((((d.enforce psm asm t1).2).enforce psm asm t2).2).cached_enforcement = none := by
  have h1 : cacheLookup t1 d.cached_enforcement = none := by rw [hfresh]; rfl
  unfold GeneralizedDelta.enforce
  rw [h1]
  cases hcore1 : d.enforceCore psm asm t1 with
  | ok tl1 =>
    simp only []
    rw [cacheLookup_single_ne t2 t1 tl1 (fun hh => hne hh.symm)]
    rw [enforceCore_cache_irrel d [(t1, tl1)] psm asm t2]
    cases hcore2 : d.enforceCore psm asm t2 with
    | ok tl2 =>
      simp only []
      exact cacheLookup_single_ne t1 t2 tl2 hne
    | error e => rfl
  | error e =>
    simp only []
    rw [cacheLookup_nil t2]
    rw [enforceCore_cache_irrel d [] psm asm t2]
    cases hcore2 : d.enforceCore psm asm t2 with
    | ok tl2 =>
      simp only []
      exact cacheLookup_single_ne t1 t2 tl2 hne
    | error e2 => rfl

/-- C7 amended witness: the concrete fresh delta dUp0 enforced at 0 and then
at 50 no longer caches an entry for 0. -/
theorem claim_c7_cache_single_entry_witness :
    cacheLookup 0
      ((((dUp0.enforce psm0 asm0 0).2).enforce psm0 asm0 50).2).cached_enforcement =
      none :=
  claim_c7_cache_single_entry psm0 asm0 dUp0 0 50 rfl (by decide)

/-- C3: evidence of the cooldown bug.  With cooldown_period = 5 minutes, the
last scheduled action at minute 0 and an unmet-change event at minute 2, the
Adjuster's timestamp adjustment leaves the action at minute 2 — only 2 minutes
after the previous action, closer than the cooldown period — instead of
pushing it to minute 5 as the claim requires. -/
theorem claim_c3_cooldown_violated :
    adjust_action_timestamp 5 0 2 = 2 ∧ (2 : Int) - 0 < 5 := by decide

/-- C4 counterexample: with neither score marked is_worst and the two joint
scores exactly equal, the Adjuster writes the substitution delta, not the
addition delta claimed. -/
theorem claim_c4_counterexample :
    update_timeline_with_best_option ⟨5, false⟩ ⟨5, false⟩ = PlanChoice.substitution ∧
      PlanChoice.substitution ≠ PlanChoice.addition := by decide

/-- C4 amended: when neither the addition score nor the substitution score is
marked is_worst, the Adjuster writes the delta whose joint score is strictly
greater (scores are oriented so that higher values are more desirable, per the
ScoreCalculator contract), and when the two joint scores are exactly equal it
writes the substitution delta. -/
theorem claim_c4_selection (sa ss : StateScore)
    (ha : sa.is_worst = false) (hb : ss.is_worst = false) :
    (sa.joint_score > ss.joint_score →
        update_timeline_with_best_option sa ss = PlanChoice.addition) ∧
      (ss.joint_score > sa.joint_score →
        update_timeline_with_best_option sa ss = PlanChoice.substitution) ∧
      (sa.joint_score = ss.joint_score →
        update_timeline_with_best_option sa ss = PlanChoice.substitution) := by
  refine ⟨fun h => ?_, fun h => ?_, fun h => ?_⟩
  · simp [update_timeline_with_best_option, ha, hb, h]
  · have hlt : ¬ sa.joint_score > ss.joint_score := not_lt_of_gt h
    simp [update_timeline_with_best_option, ha, hb, hlt]
  · have hlt : ¬ sa.joint_score > ss.joint_score := by rw [h]; exact lt_irrefl _
    simp [update_timeline_with_best_option, ha, hb, hlt]

/-- C4 amended witness: with addition joint score 10 and substitution joint
score 3, neither is_worst, the addition delta is written. -/
theorem claim_c4_selection_witness :
    update_timeline_with_best_option ⟨10, false⟩ ⟨3, false⟩ = PlanChoice.addition :=
  (claim_c4_selection ⟨10, false⟩ ⟨3, false⟩ rfl rfl).1 (by norm_num)

/-- C5: if exactly one of the two candidate scores is marked is_worst, the
Adjuster writes the delta of the other candidate unconditionally, regardless
of the numeric value of the surviving joint score. -/
theorem claim_c5_worst_short_circuit (sa ss : StateScore) :
    (sa.is_worst = true → ss.is_worst = false →
        update_timeline_with_best_option sa ss = PlanChoice.substitution) ∧
      (sa.is_worst = false → ss.is_worst = true →
        update_timeline_with_best_option sa ss = PlanChoice.addition) := by
  constructor
  · intro ha _
    simp [update_timeline_with_best_option, ha]
  · intro ha hb
    simp [update_timeline_with_best_option, ha, hb]

/-- C5 witness: addition score 10, substitution score is_worst — the addition
delta is selected unconditionally. -/
theorem claim_c5_worst_short_circuit_witness :
    update_timeline_with_best_option ⟨10, false⟩ ⟨0, true⟩ = PlanChoice.addition :=
  (claim_c5_worst_short_circuit ⟨10, false⟩ ⟨0, true⟩).2 rfl rfl

/-- C8: evidence of the placer bug.  On the requirement set
serviceA : 1 unit and the catalog small : capacity 1, _place_specialized
returns None (its body is a bare pass statement), so
compute_placement_options raises TypeError on len(None) instead of returning
an InContainerPlacement option; the same happens when the shared strategy of
the balanced or existing_mixture hints yields zero options and the
specialized strategy is escalated to. -/
theorem claim_c8_specialized_unimplemented :
    Placer_place_specialized [("serviceA", 1)] [("small", 1)] = none ∧
      compute_placement_options PlacementHint.specialized [("serviceA", 1)]
        [("small", 1)] [] [] = .error PyErr.typeError ∧
      compute_placement_options PlacementHint.balanced [("serviceA", 1)]
        [("small", 1)] [] [] = .error PyErr.typeError ∧
      compute_placement_options PlacementHint.existing_mixture [("serviceA", 1)]
        [("small", 1)] [] [] = .error PyErr.typeError := by
  refine ⟨rfl, rfl, rfl, rfl⟩

/-- C9 counterexample: scoring a request for the container type huge against
the catalog containing only small raises ValueError instead of returning an
is_worst sentinel score. -/
theorem claim_c9_counterexample :
    PriceScoreCalculator_call [("small", ⟨1⟩)] "huge" 1 1 =
      .error PyErr.valueError := rfl

/-- C9 amended: for every scoring request whose container type is not present
in the known container catalog, the price score calculator raises ValueError;
the infeasibility is signalled by the exception, not by an is_worst score
value. -/
theorem claim_c9_unknown_container_raises
    (catalog : List (String × ContainerTypeInfo)) (container_name : String)
    (duration_h : ℚ) (containers_count : Int)
    (h : lookupAssoc container_name catalog = none) :
    PriceScoreCalculator_call catalog container_name duration_h containers_count =
      .error PyErr.valueError := by
  simp [PriceScoreCalculator_call, h]

/-- C9 amended witness: the container type xl is absent from the one-entry
catalog and the call raises ValueError. -/
theorem claim_c9_unknown_container_raises_witness :
    PriceScoreCalculator_call [("small", ⟨2⟩)] "xl" 3 2 = .error PyErr.valueError :=
  claim_c9_unknown_container_raises [("small", ⟨2⟩)] "xl" 3 2 rfl

/-- C10: for every platform state and every platform state delta containing at
least one regional delta, the addition raises an exception (AttributeError on
the first loop iteration: the loop variable is the (region name, regional
delta) pair and a tuple has no attribute region_name), so the additive
state-plus-delta combination never returns a combined state on a non-empty
delta. -/
theorem claim_c10_add_always_raises (s : PlatformState) (sd : PlatformStateDelta)
    (h : sd.deltas_per_region ≠ []) :
    PlatformState_add s sd = .error PyErr.attributeError := by
  cases hl : sd.deltas_per_region with
  | nil => exact absurd hl h
  | cons p rest =>
    simp only [PlatformState_add, hl, List.foldlM, PlatformState_add_body,
      pair_region_name_attr]
    rfl

/-- C10 witness: adding a one-region delta to the empty platform state raises
AttributeError. -/
theorem claim_c10_add_always_raises_witness :
    PlatformState_add ps0 psd0 = .error PyErr.attributeError :=
  claim_c10_add_always_raises ps0 psd0 (by decide)
